import Mathlib

/-!
# Verification of the Ads analysis engine

Shallow embedding of the classification-and-reporting core of the Ads
repository (`src/services/analysisService.ts`, which contains two drafts of
`analyzeAds`, and `src/services/geminiService.ts`).  JavaScript numbers are
modelled as exact rationals (`ℚ`); JavaScript objects used as string-keyed
maps are modelled as insertion-ordered association lists, matching the
ECMAScript iteration order for non-integer-like string keys; `Array.sort`
with a consistent comparator is modelled as a stable insertion sort, as
mandated by ES2019.
-/

set_option linter.unusedVariables false
set_option maxRecDepth 100000

/-- Input row (`AdData` in `src/types.ts`); numeric fields are JS numbers,
modelled as rationals. -/
structure AdData where
  campaignName : String
  adSetName : String
  adName : String
  amountSpent : ℚ
  impressions : ℚ
  clicks : ℚ
  ctr : ℚ
  cpc : ℚ
  results : ℚ
  costPerResult : ℚ
  roas : ℚ
  currency : String
  resultType : String
deriving DecidableEq, Repr

/-- Output summary (`AnalysisResult.summary` in `src/types.ts`). -/
structure Summary where
  totalSpent : ℚ
  totalRevenue : ℚ
  avgRoas : ℚ
  avgCpa : ℚ
  totalResults : ℚ
  dominantResultType : String
deriving DecidableEq, Repr

/-- Output value (`AnalysisResult` in `src/types.ts`). -/
structure AnalysisResult where
  markdownReport : String
  summary : Summary
deriving DecidableEq, Repr

/-- `data.reduce((sum, item) => sum + item.amountSpent, 0)`
(identical in both drafts of `analyzeAds`). -/
def totalSpent (data : List AdData) : ℚ :=
  (data.map (fun i => i.amountSpent)).sum

/-- `data.reduce((sum, item) => sum + (item.amountSpent * item.roas), 0)`. -/
def totalRevenue (data : List AdData) : ℚ :=
  (data.map (fun i => i.amountSpent * i.roas)).sum

/-- `data.reduce((sum, item) => sum + item.results, 0)`. -/
def totalResults (data : List AdData) : ℚ :=
  (data.map (fun i => i.results)).sum

/-- `totalSpent > 0 ? totalRevenue / totalSpent : 0`. -/
def avgRoas (data : List AdData) : ℚ :=
  if 0 < totalSpent data then totalRevenue data / totalSpent data else 0

/-- `totalResults > 0 ? totalSpent / totalResults : 0`. -/
def avgCpa (data : List AdData) : ℚ :=
  if 0 < totalResults data then totalSpent data / totalResults data else 0

/-- Key list of a JS object built by repeated insertion: iteration order is
first-insertion order (for non-integer-like string keys). -/
def jsKeys (l : List String) : List String :=
  l.foldl (fun ks k => if k ∈ ks then ks else ks ++ [k]) []

/-- `counts[t]` where `counts` tallies `item.resultType` over the data:
the number of records whose `resultType` is `t`. -/
def countType (data : List AdData) (t : String) : Nat :=
  (data.map (fun i => i.resultType)).count t

/-- `Object.keys(counts).reduce((a, b) => (counts[a] > counts[b] ? a : b), 'generic')`.
For the initial accumulator `'generic'`, JS reads `counts['generic']`, which is
`undefined` when no record has that type; `undefined > n` is `false`, exactly
like comparing the count `0`. -/
def dominantResultType (data : List AdData) : String :=
  (jsKeys (data.map (fun i => i.resultType))).foldl
    (fun a b => if countType data b < countType data a then a else b) "generic"

/-- `avgRoas > 0.5 || dominantResultType === 'purchase'`. -/
def isEcommerce (data : List AdData) : Bool :=
  decide ((1 : ℚ)/2 < avgRoas data) || (dominantResultType data == "purchase")

/-- `roasThreshold.good = avgRoas * 1.2` (second draft). -/
def roasThresholdGood (data : List AdData) : ℚ := avgRoas data * (12/10)

/-- `roasThreshold.bad = avgRoas * 0.8` (second draft). -/
def roasThresholdBad (data : List AdData) : ℚ := avgRoas data * (8/10)

/-- `cpaThreshold.good = avgCpa > 0 ? avgCpa * 0.8 : 0` (second draft). -/
def cpaThresholdGood (data : List AdData) : ℚ :=
  if 0 < avgCpa data then avgCpa data * (8/10) else 0

/-- `cpaThreshold.bad = avgCpa > 0 ? avgCpa * 1.3 : 0` (second draft). -/
def cpaThresholdBad (data : List AdData) : ℚ :=
  if 0 < avgCpa data then avgCpa data * (13/10) else 0

/-- `significanceThreshold = avgCpa > 0 ? avgCpa : (totalSpent / (data.length || 1))`
(second draft). -/
def significanceThreshold (data : List AdData) : ℚ :=
  if 0 < avgCpa data then avgCpa data
  else totalSpent data / (if data.length = 0 then 1 else (data.length : ℚ))

/-- Aggregated group (`AggregatedMetrics` in the second draft; the first draft
uses the same record without the `cpc` field, embedded here with `cpc = 0`). -/
structure AggregatedMetrics where
  name : String
  spend : ℚ
  revenue : ℚ
  results : ℚ
  impressions : ℚ
  clicks : ℚ
  roas : ℚ
  cpa : ℚ
  ctr : ℚ
  cpc : ℚ
deriving DecidableEq, Repr

/-- The fresh all-zero accumulator entry created for a new key. -/
def initAgg (k : String) : AggregatedMetrics :=
  { name := k, spend := 0, revenue := 0, results := 0, impressions := 0,
    clicks := 0, roas := 0, cpa := 0, ctr := 0, cpc := 0 }

/-- The `+=` block of the aggregation loop: add one row into an accumulator. -/
def addItem (g : AggregatedMetrics) (item : AdData) : AggregatedMetrics :=
  { g with
    spend := g.spend + item.amountSpent,
    revenue := g.revenue + item.amountSpent * item.roas,
    results := g.results + item.results,
    impressions := g.impressions + item.impressions,
    clicks := g.clicks + item.clicks }

/-- One iteration of `data.forEach` in `aggregate`: create the entry for the
row's key if missing, then `+=` the row's metrics into it. -/
def aggStep (keyFn : AdData → String) (m : List AggregatedMetrics)
    (item : AdData) : List AggregatedMetrics :=
  let key := keyFn item
  let m' := if m.any (fun g => g.name == key) then m else m ++ [initAgg key]
  m'.map (fun g => if g.name == key then addItem g item else g)

/-- The accumulation pass of `aggregate` (the `map` object, in insertion order). -/
def aggBuild (keyFn : AdData → String) (data : List AdData) :
    List AggregatedMetrics :=
  data.foldl (aggStep keyFn) []

/-- The ratio-derivation pass of `aggregate` (second draft):
`roas`, `cpa`, `ctr`, `cpc` with zero guards. -/
def finalizeAgg (g : AggregatedMetrics) : AggregatedMetrics :=
  { g with
    roas := if 0 < g.spend then g.revenue / g.spend else 0,
    cpa := if 0 < g.results then g.spend / g.results else 0,
    ctr := if 0 < g.impressions then g.clicks / g.impressions * 100 else 0,
    cpc := if 0 < g.clicks then g.spend / g.clicks else 0 }

/-- `aggregate(keyFn)` of the second draft: `Object.values(map).map(...)`. -/
def aggregate (keyFn : AdData → String) (data : List AdData) :
    List AggregatedMetrics :=
  (aggBuild keyFn data).map finalizeAgg

/-- `d.adSetName || 'Unknown AdSet'` (the only falsy string is `""`). -/
def adSetKey (d : AdData) : String :=
  if d.adSetName == "" then "Unknown AdSet" else d.adSetName

/-- `d.adName || 'Unknown Creative'`. -/
def creativeKey (d : AdData) : String :=
  if d.adName == "" then "Unknown Creative" else d.adName

/-- `adSets = aggregate(d => d.adSetName || 'Unknown AdSet')` (second draft). -/
def adSets (data : List AdData) : List AggregatedMetrics :=
  aggregate adSetKey data

/-- `creatives = aggregate(d => d.adName || 'Unknown Creative')` (second draft). -/
def creatives (data : List AdData) : List AggregatedMetrics :=
  aggregate creativeKey data

/-- `zombies = data.filter(d => d.results === 0 && d.amountSpent > significanceThreshold * 0.5)`. -/
def zombies (data : List AdData) : List AdData :=
  data.filter fun d =>
    decide (d.results = 0) && decide (significanceThreshold data * (1/2) < d.amountSpent)

/-- `bleeders` (second draft): rows with results, significant spend, and
performance below the bad threshold for the active context. -/
def bleeders (data : List AdData) : List AdData :=
  data.filter fun d =>
    if d.results = 0 then false
    else if d.amountSpent < significanceThreshold data then false
    else if isEcommerce data then decide (d.roas < roasThresholdBad data)
    else decide (cpaThresholdBad data < d.costPerResult)

/-- `winners` (second draft): rows with results, significant spend, and
performance at/above the good threshold for the active context. -/
def winners (data : List AdData) : List AdData :=
  data.filter fun d =>
    if d.results = 0 then false
    else if d.amountSpent < significanceThreshold data then false
    else if isEcommerce data then decide (roasThresholdGood data ≤ d.roas)
    else decide (d.costPerResult ≤ cpaThresholdGood data)

/-- `potentials` (second draft): under-spent rows with results at/above the
account average. -/
def potentials (data : List AdData) : List AdData :=
  data.filter fun d =>
    if d.results = 0 then false
    else if significanceThreshold data ≤ d.amountSpent then false
    else if isEcommerce data then decide (avgRoas data ≤ d.roas)
    else decide (d.costPerResult ≤ avgCpa data)

/-- Insert one element into an already-sorted list, keeping it before the
first element it compares `le` to; used to model the stable `Array.sort`. -/
def insertS (le : α → α → Bool) (x : α) : List α → List α
  | [] => [x]
  | y :: t => if le x y then x :: y :: t else y :: insertS le x t

/-- Stable sort (insertion sort). `Array.prototype.sort` with a consistent
comparator `cmp` is required by ES2019 to produce the unique stable order;
call with `le a b := cmp(a,b) ≤ 0`. -/
def jsSort (le : α → α → Bool) : List α → List α
  | [] => []
  | x :: t => insertS le x (jsSort le t)

/-- `topCreatives` (second draft). -/
def topCreatives (data : List AdData) : List AggregatedMetrics :=
  jsSort
    (fun a b => if isEcommerce data then decide (b.roas ≤ a.roas) else decide (a.cpa ≤ b.cpa))
    ((creatives data).filter fun c =>
      decide (significanceThreshold data < c.spend) &&
      (if isEcommerce data then decide (avgRoas data < c.roas) else decide (c.cpa < avgCpa data)))

/-- `badCreatives` (second draft), sorted by descending spend. -/
def badCreatives (data : List AdData) : List AggregatedMetrics :=
  jsSort (fun a b => decide (b.spend ≤ a.spend))
    ((creatives data).filter fun c =>
      decide (significanceThreshold data < c.spend) &&
      (if isEcommerce data then decide (c.roas < roasThresholdBad data)
       else decide (cpaThresholdBad data < c.cpa)))

/-- Rendering of a JS number.  The source renders through `toFixed(2)` /
`toLocaleString(...)`; digit rounding and locale grouping are abstracted to an
exact rational rendering (the verified properties never depend on the digits
of a rendered number, and the two agree on the values actually proved about,
such as `0`). -/
def ratToString (q : ℚ) : String :=
  if q.den = 1 then toString q.num else toString q.num ++ "/" ++ toString q.den

/-- The Darija markdown report of the second draft of `analyzeAds`
(source lines 398–487), section by section, in source order. -/
def markdownReport (data : List AdData) : String :=
  let md1 := "## 📊 تقرير التحليل المعمق\n\n"
  let md2 := md1 ++ "### 🏥 الحالة العامة للحساب\n"
      ++ "صرفتي فالمجموع **$" ++ ratToString (totalSpent data)
      ++ "** وجبتي **" ++ ratToString (totalResults data) ++ "** نتيجة.\n"
  let md3 := md2 ++
    (if totalResults data = 0 then
      "⚠️ **مشكل كبير:** مازال ما جبتي حتى نتيجة (Sales/Leads). تأكد واش الـ Pixel خدام مزيان أو واش الـ Offer ديالك مطلوب.\n"
    else if isEcommerce data then
      "- **Moyenne ROAS:** " ++ ratToString (avgRoas data) ++ ". \n"
      ++ "- **Break-even:** نتا اللي عارف المارج ديالك، ولكن أي حاجة تحت **"
      ++ ratToString (avgRoas data * (8/10))
      ++ "** كتعتبر عيانة مقارنة بالمعدل ديالك.\n"
    else
      "- **Moyenne CPA:** $" ++ ratToString (avgCpa data) ++ ". \n"
      ++ "- أي نتيجة كتقام عليك بأكثر من **$" ++ ratToString (cpaThresholdBad data)
      ++ "** راها غالية بزاف.\n")
  let md4 := md3 ++ "\n---\n\n"
  let md5 := md4 ++ "### 🚦 الإجراءات اللي خاصك دير دابا (Action Plan)\n\n"
  let zs := zombies data
  let bs := bleeders data
  let ws := winners data
  let ps := potentials data
  let rowCmp : AdData → AdData → Bool := fun a b =>
    if isEcommerce data then decide (a.roas ≤ b.roas) else decide (b.costPerResult ≤ a.costPerResult)
  let rowCmpGood : AdData → AdData → Bool := fun a b =>
    if isEcommerce data then decide (b.roas ≤ a.roas) else decide (a.costPerResult ≤ b.costPerResult)
  let metricOf : AdData → String := fun ad =>
    if isEcommerce data then "ROAS: " ++ ratToString ad.roas
    else "CPA: $" ++ ratToString ad.costPerResult
  let md6 := md5 ++
    (if 0 < zs.length || 0 < bs.length then
      "#### 🛑 حبس هادشي دابا (Kill)\n"
      ++ "هاد الإعلانات كتحرق ليك الفلوس بلا فايدة:\n"
      ++ (if 0 < zs.length then
            "**💀 إعلانات ميتة (0 Results):**\n"
            ++ String.join
              (((jsSort (fun a b => decide (b.amountSpent ≤ a.amountSpent)) zs).take 3).map
                (fun ad => "- `" ++ ad.adName ++ "`: كلات **$" ++ ratToString ad.amountSpent
                  ++ "** وماجابت والو.\n"))
          else "")
      ++ (if 0 < bs.length then
            "**💸 إعلانات خاسرة (High CPA/Low ROAS):**\n"
            ++ String.join
              (((jsSort rowCmp bs).take 3).map
                (fun ad => "- `" ++ ad.adName ++ "`: صرفات **$" ++ ratToString ad.amountSpent
                  ++ "** ولكن " ++ metricOf ad ++ ".\n"))
          else "")
      ++ "\n"
    else "")
  let md7 := md6 ++
    (if 0 < ws.length then
      "#### 🔥 زيد فالبيجي لهادو (Scale)\n"
      ++ "هادو هما الـ Winners ديالك، خدامين مزيان وصارفين تبارك الله:\n"
      ++ String.join
        (((jsSort rowCmpGood ws).take 3).map
          (fun ad => "- `" ++ ad.adName ++ "`: " ++ metricOf ad ++ " (Results: "
            ++ ratToString ad.results ++ ").\n"))
      ++ "*نصيحة: زيد فالميزانية بـ 20% كل 2-3 أيام باش ما تخسرش الـ Optimization.*\n\n"
    else "")
  let md8 := md7 ++
    (if 0 < ps.length then
      "#### 💎 عطيهم فرصة (Potentials)\n"
      ++ "هاد الإعلانات يالاه بدات ولكن المؤشرات ديالها خضرا. حاول تصبر عليها شوية:\n"
      ++ String.join
        (((jsSort rowCmpGood ps).take 3).map
          (fun ad => "- `" ++ ad.adName ++ "`: صرفات قليل ($" ++ ratToString ad.amountSpent
            ++ ") ولكن " ++ metricOf ad ++ " مزيان.\n"))
      ++ "\n"
    else "")
  let md9 := md8 ++ "---\n\n"
  let md10 := md9 ++ "### 🧠 تحليل الكرياتيف و المجموعات\n\n"
      ++ "**📂 المجموعات (AdSets):**\n"
  let winningSets := (adSets data).filter fun s =>
    if isEcommerce data then decide (avgRoas data < s.roas) else decide (s.cpa < avgCpa data)
  let md11 := md10 ++
    (if 0 < winningSets.length then
      let topSet :=
        (jsSort (fun a b =>
            if isEcommerce data then decide (b.roas ≤ a.roas) else decide (a.cpa ≤ b.cpa))
          winningSets).headD (initAgg "")
      "- أحسن AdSet هي `" ++ topSet.name ++ "` بـ "
      ++ (if isEcommerce data then "ROAS " ++ ratToString topSet.roas
          else "CPA $" ++ ratToString topSet.cpa) ++ ".\n"
    else "- جميع الـ AdSets الأداء ديالها متقارب أو طايح.\n")
  let md12 := md11 ++ "\n**🎨 الكرياتيف (Ads):**\n"
  let tc := topCreatives data
  let bc := badCreatives data
  let md13 := md12 ++
    (if 0 < tc.length then
      "أحسن فورما/فيديو خدام ليك هو `" ++ (tc.headD (initAgg "")).name ++ "`. \n"
      ++ "حاول تصاوب إعلانات جديدة كتشبه لهاد الستيل (نفس الـ Hook أو الزاوية الإعلانية).\n"
    else if 0 < bc.length then
      "الكرياتيف `" ++ (bc.headD (initAgg "")).name ++ "` عيان بزاف. بدلو دغيا.\n"
    else "")
  md13 ++ "\n"

/-- The second draft of `analyzeAds` (source lines 271–500): the narrative
plus the summary.  The `await`-simulated delay performs no computation and is
dropped; the function is total, so the model returns the result directly. -/
def analyzeAds (data : List AdData) : AnalysisResult :=
  { markdownReport := markdownReport data,
    summary :=
    { totalSpent := totalSpent data,
      totalRevenue := totalRevenue data,
      avgRoas := avgRoas data,
      avgCpa := avgCpa data,
      totalResults := totalResults data,
      dominantResultType := dominantResultType data } }

namespace v1

/-- First draft (`analysisService.ts` lines 77):
`highCpaThreshold = avgCpa > 0 ? avgCpa * 1.3 : 0`. -/
def highCpaThreshold (data : List AdData) : ℚ :=
  if 0 < avgCpa data then avgCpa data * (13/10) else 0

/-- First draft (line 79):
`minSpendForDecision = data.length > 0 ? (totalSpent / data.length) * 0.2 : 0`. -/
def minSpendForDecision (data : List AdData) : ℚ :=
  if 0 < data.length then totalSpent data / (data.length : ℚ) * (2/10) else 0

/-- First draft `calculateMetrics` (lines 64–69): derived `roas`, `cpa`, `ctr`
(the first draft has no `cpc` field; the shared record keeps it at `0`). -/
def calculateMetrics (g : AggregatedMetrics) : AggregatedMetrics :=
  { g with
    roas := if 0 < g.spend then g.revenue / g.spend else 0,
    cpa := if 0 < g.results then g.spend / g.results else 0,
    ctr := if 0 < g.impressions then g.clicks / g.impressions * 100 else 0 }

/-- First draft ad-set aggregation (lines 36–71): same accumulation loop as
the second draft, finalized with the first draft's `calculateMetrics`. -/
def adSets (data : List AdData) : List AggregatedMetrics :=
  (aggBuild adSetKey data).map calculateMetrics

/-- First draft `badAdSets` (lines 103–107):
`if (s.spend < minSpendForDecision) return false;
 if (isEcommerce) return s.roas < 1.0 || (s.roas < avgRoas * 0.8);
 return s.results === 0 || s.cpa > highCpaThreshold;`. -/
def badAdSets (data : List AdData) : List AggregatedMetrics :=
  (adSets data).filter fun s =>
    if s.spend < minSpendForDecision data then false
    else if isEcommerce data then
      decide (s.roas < 1 ∨ s.roas < avgRoas data * (8/10))
    else
      decide (s.results = 0 ∨ highCpaThreshold data < s.cpa)

end v1

namespace gemini

/-- `geminiService.ts` line 16: `avgRoas = totalRevenue / totalSpent || 0`.
When `totalSpent = 0` the record-extractor contract (`amountSpent ≥ 0`)
forces `totalRevenue = 0`, so JS computes `NaN`, and `NaN || 0` is `0`;
the `±Infinity` outcome (`totalSpent = 0`, `totalRevenue ≠ 0`) is unreachable
under that contract and is modelled as `0` as well. -/
def avgRoas (data : List AdData) : ℚ :=
  if totalSpent data = 0 then 0 else totalRevenue data / totalSpent data

/-- `geminiService.ts` lines 20–23:
`resultTypes.sort((a,b) => count(a) - count(b)).pop() || 'generic'`;
a stable ascending sort of the full multiset of result types by occurrence
count, whose last element is taken; `pop()` of an empty array is `undefined`
and `undefined || 'generic'` (as well as `'' || 'generic'`) is `'generic'`. -/
def dominantResultType (data : List AdData) : String :=
  let resultTypes := data.map (fun d => d.resultType)
  match (jsSort (fun a b => decide (resultTypes.count a ≤ resultTypes.count b))
      resultTypes).getLast? with
  | none => "generic"
  | some t => if t = "" then "generic" else t

/-- `geminiService.ts` line 26: `avgRoas > 0.5 || dominantResultType === 'purchase'`. -/
def isEcommerce (data : List AdData) : Bool :=
  decide ((1 : ℚ)/2 < avgRoas data) || (dominantResultType data == "purchase")

end gemini

/-- `startsWithL p s` is `true` iff the character list `p` is a prefix of `s`. -/
def startsWithL : List Char → List Char → Bool
  | [], _ => true
  | _ :: _, [] => false
  | a :: p, b :: s => a == b && startsWithL p s

/-- `containsL p s` is `true` iff `p` occurs as a contiguous run inside `s`. -/
def containsL (p : List Char) : List Char → Bool
  | [] => p.isEmpty
  | b :: t => startsWithL p (b :: t) || containsL p t

/-- Substring test on strings (via their character lists). -/
def strContains (s pat : String) : Bool := containsL pat.toList s.toList

/-- Suffix test on strings (via their reversed character lists). -/
def strEndsWith (s pat : String) : Bool :=
  startsWithL pat.toList.reverse s.toList.reverse

/-- C1, counterexample: on the empty record set the report of `analyzeAds` has
no fallback sentence for the kill, scale or test lists (the Action-Plan block
is entirely empty: its header is immediately followed by the next section
separator, and the section markers `(Kill)`, `(Scale)`, `(Potentials)` are
absent), and the creative-insights section consists of its header alone at
the very end of the report — so the narrative does not contain a no-data
fallback sentence for every expected section. -/
theorem analyzeAds_empty_counterexample :
    strContains (analyzeAds []).markdownReport "(Kill)" = false ∧
    strContains (analyzeAds []).markdownReport "(Scale)" = false ∧
    strContains (analyzeAds []).markdownReport "(Potentials)" = false ∧
    strContains (analyzeAds []).markdownReport
      "### 🚦 الإجراءات اللي خاصك دير دابا (Action Plan)\n\n---\n\n" = true ∧
    strEndsWith (analyzeAds []).markdownReport "**🎨 الكرياتيف (Ads):**\n\n" = true := by
  decide

/-- C1, amended: on the empty record set `analyzeAds` returns (totally, no
exception) a summary whose five numeric fields are `0` and whose dominant
result type is `"generic"`; the narrative contains the explicit no-data
sentences of the health section and of the ad-set section, while the
kill/scale/test lists and the creative-insights content are omitted
altogether rather than rendered with a fallback sentence. -/
theorem analyzeAds_empty_amended :
    (analyzeAds []).summary =
      { totalSpent := 0, totalRevenue := 0, avgRoas := 0, avgCpa := 0,
        totalResults := 0, dominantResultType := "generic" } ∧
    strContains (analyzeAds []).markdownReport
      "⚠️ **مشكل كبير:** مازال ما جبتي حتى نتيجة" = true ∧
    strContains (analyzeAds []).markdownReport
      "- جميع الـ AdSets الأداء ديالها متقارب أو طايح.\n" = true ∧
    strContains (analyzeAds []).markdownReport
      "### 🚦 الإجراءات اللي خاصك دير دابا (Action Plan)\n\n---\n\n" = true ∧
    strEndsWith (analyzeAds []).markdownReport "**🎨 الكرياتيف (Ads):**\n\n" = true := by
  decide

lemma mem_zombies {data : List AdData} {d : AdData} :
    d ∈ zombies data ↔
      d ∈ data ∧ d.results = 0 ∧ significanceThreshold data * (1/2) < d.amountSpent := by
  simp [zombies, List.mem_filter, and_assoc]

lemma mem_bleeders {data : List AdData} {d : AdData} :
    d ∈ bleeders data ↔
      d ∈ data ∧ ¬ d.results = 0 ∧ ¬ d.amountSpent < significanceThreshold data ∧
        (if isEcommerce data then d.roas < roasThresholdBad data
         else cpaThresholdBad data < d.costPerResult) := by
  simp only [bleeders, List.mem_filter]
  refine and_congr_right fun _ => ?_
  split_ifs <;> simp_all

lemma mem_winners {data : List AdData} {d : AdData} :
    d ∈ winners data ↔
      d ∈ data ∧ ¬ d.results = 0 ∧ ¬ d.amountSpent < significanceThreshold data ∧
        (if isEcommerce data then roasThresholdGood data ≤ d.roas
         else d.costPerResult ≤ cpaThresholdGood data) := by
  simp only [winners, List.mem_filter]
  refine and_congr_right fun _ => ?_
  split_ifs <;> simp_all

lemma mem_potentials {data : List AdData} {d : AdData} :
    d ∈ potentials data ↔
      d ∈ data ∧ ¬ d.results = 0 ∧ ¬ significanceThreshold data ≤ d.amountSpent ∧
        (if isEcommerce data then avgRoas data ≤ d.roas
         else d.costPerResult ≤ avgCpa data) := by
  simp only [potentials, List.mem_filter]
  refine and_congr_right fun _ => ?_
  split_ifs <;> simp_all

/-- C3: the zombies bucket is disjoint from each of bleeders, winners and
potentials (zombies require `results == 0`, the other three `results ≠ 0`),
and bleeders and winners are each disjoint from potentials (bleeders and
winners require spend at/above the significance floor, potentials below it). -/
theorem row_buckets_disjoint (data : List AdData) :
    zombies data ∩ bleeders data = [] ∧
    zombies data ∩ winners data = [] ∧
    zombies data ∩ potentials data = [] ∧
    bleeders data ∩ potentials data = [] ∧
    winners data ∩ potentials data = [] := by
  refine ⟨?_, ?_, ?_, ?_, ?_⟩ <;> rw [List.inter_eq_nil_iff_disjoint] <;>
    intro d hd₁ hd₂
  · exact (mem_bleeders.mp hd₂).2.1 (mem_zombies.mp hd₁).2.1
  · exact (mem_winners.mp hd₂).2.1 (mem_zombies.mp hd₁).2.1
  · exact (mem_potentials.mp hd₂).2.1 (mem_zombies.mp hd₁).2.1
  · exact (mem_potentials.mp hd₂).2.2.1 (le_of_not_lt (mem_bleeders.mp hd₁).2.2.1)
  · exact (mem_potentials.mp hd₂).2.2.1 (le_of_not_lt (mem_winners.mp hd₁).2.2.1)

/-- C10: a row with zero results and spend at most half the significance
floor lands in none of the four row-level buckets: it misses the zombie
spend condition, and the other three buckets all require results. -/
theorem underspent_zero_result_in_no_bucket (data : List AdData) (d : AdData)
    (h0 : d.results = 0)
    (h1 : d.amountSpent ≤ significanceThreshold data * (1/2)) :
    d ∉ zombies data ∧ d ∉ bleeders data ∧ d ∉ winners data ∧ d ∉ potentials data := by
  refine ⟨fun hm => ?_, fun hm => ?_, fun hm => ?_, fun hm => ?_⟩
  · exact absurd (mem_zombies.mp hm).2.2 (not_lt.mpr h1)
  · exact (mem_bleeders.mp hm).2.1 h0
  · exact (mem_winners.mp hm).2.1 h0
  · exact (mem_potentials.mp hm).2.1 h0

/-- A sample row for concrete instantiations: result type `t`, ad-set `s`,
ad name `n`, and the three metrics actually read by the classifiers. -/
def mkAd (t s n : String) (spend roas results : ℚ) : AdData :=
  { campaignName := "Camp", adSetName := s, adName := n, amountSpent := spend,
    impressions := 0, clicks := 0, ctr := 0, cpc := 0, results := results,
    costPerResult := 0, roas := roas, currency := "USD", resultType := t }

/-- Witness for C10: in a data set whose significance floor is `110`, a row
with `10` spend and no results is in no bucket. -/
theorem underspent_zero_result_in_no_bucket_witness :
    mkAd "generic" "S" "A1" 10 0 0 ∉
      zombies [mkAd "generic" "S" "A1" 10 0 0, mkAd "generic" "S" "A2" 100 0 1] ∧
    mkAd "generic" "S" "A1" 10 0 0 ∉
      bleeders [mkAd "generic" "S" "A1" 10 0 0, mkAd "generic" "S" "A2" 100 0 1] ∧
    mkAd "generic" "S" "A1" 10 0 0 ∉
      winners [mkAd "generic" "S" "A1" 10 0 0, mkAd "generic" "S" "A2" 100 0 1] ∧
    mkAd "generic" "S" "A1" 10 0 0 ∉
      potentials [mkAd "generic" "S" "A1" 10 0 0, mkAd "generic" "S" "A2" 100 0 1] := by
  apply underspent_zero_result_in_no_bucket
  · rfl
  · show (10 : ℚ) ≤ _
    norm_num [significanceThreshold, avgCpa, totalSpent, totalResults, mkAd]

/-- C7: under the record-extractor contract (non-negative spend and ROAS),
the derived thresholds put "good" on the profitable side:
`roasBad ≤ roasGood` and `cpaGood ≤ cpaBad`. -/
theorem thresholds_ordered (data : List AdData)
    (h : ∀ d ∈ data, 0 ≤ d.amountSpent ∧ 0 ≤ d.roas) :
    roasThresholdBad data ≤ roasThresholdGood data ∧
    cpaThresholdGood data ≤ cpaThresholdBad data := by
  have havg : 0 ≤ avgRoas data := by
    simp only [avgRoas]
    split_ifs with hs
    · refine div_nonneg ?_ hs.le
      simp only [totalRevenue]
      refine List.sum_nonneg ?_
      intro x hx
      obtain ⟨d, hd, rfl⟩ := List.mem_map.mp hx
      exact mul_nonneg (h d hd).1 (h d hd).2
    · exact le_refl 0
  refine ⟨?_, ?_⟩
  · simp only [roasThresholdBad, roasThresholdGood]
    exact mul_le_mul_of_nonneg_left (by norm_num) havg
  · simp only [cpaThresholdGood, cpaThresholdBad]
    split_ifs with hc
    · exact mul_le_mul_of_nonneg_left (by norm_num) hc.le
    · exact le_refl 0

/-- Witness for C7 on a concrete one-row data set. -/
theorem thresholds_ordered_witness :
    roasThresholdBad [mkAd "purchase" "S" "A1" 2 1 1] ≤
      roasThresholdGood [mkAd "purchase" "S" "A1" 2 1 1] ∧
    cpaThresholdGood [mkAd "purchase" "S" "A1" 2 1 1] ≤
      cpaThresholdBad [mkAd "purchase" "S" "A1" 2 1 1] := by
  apply thresholds_ordered
  intro d hd
  rw [List.mem_singleton] at hd
  subst hd
  norm_num [mkAd]

/-- C6 (Scenario B): two `purchase` rows, spends 1000/1000, ROAS 3.0 and 0.2,
each with at least one result (an integral result count is positive whenever
the row converted): the account average ROAS is 1.6, the context is
e-commerce, the 0.2-ROAS row is a bleeder (`0.2 < roasBad = 1.28`) and the
3.0-ROAS row is a winner (`3.0 ≥ roasGood = 1.92`). -/
theorem scenarioB (d1 d2 : AdData)
    (h1s : d1.amountSpent = 1000) (h1r : d1.roas = 3)
    (h1t : d1.resultType = "purchase") (h1n : 1 ≤ d1.results)
    (h2s : d2.amountSpent = 1000) (h2r : d2.roas = 1/5)
    (h2t : d2.resultType = "purchase") (h2n : 1 ≤ d2.results) :
    avgRoas [d1, d2] = 8/5 ∧ isEcommerce [d1, d2] = true ∧
    roasThresholdBad [d1, d2] = 32/25 ∧ roasThresholdGood [d1, d2] = 48/25 ∧
    d2 ∈ bleeders [d1, d2] ∧ d1 ∈ winners [d1, d2] := by
  have hts : totalSpent [d1, d2] = 2000 := by
    simp only [totalSpent, List.map_cons, List.map_nil, List.sum_cons,
      List.sum_nil, h1s, h2s]
    norm_num
  have htr : totalRevenue [d1, d2] = 3200 := by
    simp only [totalRevenue, List.map_cons, List.map_nil, List.sum_cons,
      List.sum_nil, h1s, h1r, h2s, h2r]
    norm_num
  have havg : avgRoas [d1, d2] = 8/5 := by
    simp only [avgRoas, hts, htr]
    norm_num
  have hecom : isEcommerce [d1, d2] = true := by
    simp only [isEcommerce, havg, Bool.or_eq_true, decide_eq_true_eq]
    left
    norm_num
  have htres : (2:ℚ) ≤ totalResults [d1, d2] := by
    simp only [totalResults, List.map_cons, List.map_nil, List.sum_cons,
      List.sum_nil]
    linarith
  have htrespos : 0 < totalResults [d1, d2] := lt_of_lt_of_le (by norm_num) htres
  have hcpa : avgCpa [d1, d2] = 2000 / totalResults [d1, d2] := by
    simp only [avgCpa, hts, if_pos htrespos]
  have hcpapos : 0 < avgCpa [d1, d2] := by
    rw [hcpa]
    exact div_pos (by norm_num) htrespos
  have hsig : significanceThreshold [d1, d2] = 2000 / totalResults [d1, d2] := by
    simp only [significanceThreshold]
    rw [if_pos hcpapos, hcpa]
  have hsigle : significanceThreshold [d1, d2] ≤ 1000 := by
    rw [hsig, div_le_iff₀ htrespos]
    linarith
  have hbad : roasThresholdBad [d1, d2] = 32/25 := by
    simp only [roasThresholdBad, havg]
    norm_num
  have hgood : roasThresholdGood [d1, d2] = 48/25 := by
    simp only [roasThresholdGood, havg]
    norm_num
  refine ⟨havg, hecom, hbad, hgood, ?_, ?_⟩
  · rw [mem_bleeders]
    refine ⟨by simp, ?_, ?_, ?_⟩
    · intro h0
      rw [h0] at h2n
      norm_num at h2n
    · rw [h2s]
      exact not_lt.mpr hsigle
    · simp only [hecom, if_true, h2r, hbad]
      norm_num
  · rw [mem_winners]
    refine ⟨by simp, ?_, ?_, ?_⟩
    · intro h0
      rw [h0] at h1n
      norm_num at h1n
    · rw [h1s]
      exact not_lt.mpr hsigle
    · simp only [hecom, if_true, h1r, hgood]
      norm_num

/-- Witness for C6: the scenario instantiated with one result per row. -/
theorem scenarioB_witness :
    avgRoas [mkAd "purchase" "S" "A1" 1000 3 1, mkAd "purchase" "S" "A2" 1000 (1/5) 1] = 8/5 ∧
    isEcommerce [mkAd "purchase" "S" "A1" 1000 3 1, mkAd "purchase" "S" "A2" 1000 (1/5) 1] = true ∧
    roasThresholdBad [mkAd "purchase" "S" "A1" 1000 3 1, mkAd "purchase" "S" "A2" 1000 (1/5) 1] = 32/25 ∧
    roasThresholdGood [mkAd "purchase" "S" "A1" 1000 3 1, mkAd "purchase" "S" "A2" 1000 (1/5) 1] = 48/25 ∧
    mkAd "purchase" "S" "A2" 1000 (1/5) 1 ∈
      bleeders [mkAd "purchase" "S" "A1" 1000 3 1, mkAd "purchase" "S" "A2" 1000 (1/5) 1] ∧
    mkAd "purchase" "S" "A1" 1000 3 1 ∈
      winners [mkAd "purchase" "S" "A1" 1000 3 1, mkAd "purchase" "S" "A2" 1000 (1/5) 1] :=
  scenarioB _ _ rfl rfl rfl (by norm_num [mkAd]) rfl rfl rfl (by norm_num [mkAd])

/-- Two e-commerce rows in distinct ad-sets, account average ROAS exactly 1:
ad-set `A` has ROAS 0.9, which is below `1.0` but not below `avgRoas × 0.8`. -/
def v1rows : List AdData :=
  [mkAd "generic" "A" "Ad1" 100 (9/10) 1, mkAd "generic" "B" "Ad2" 100 (11/10) 1]

/-- C4, counterexample: in an e-commerce data set with `avgRoas = 1`, the
ad-set `A` (roas `0.9`) is classified into `badAdSets` although its roas is
not below `avgRoas × 0.8 = 0.8` — the first draft also flags any ad-set with
`roas < 1.0`, a disjunct the claim omits. -/
theorem badAdSets_claim_counterexample :
    isEcommerce v1rows = true ∧
    avgRoas v1rows = 1 ∧
    (v1.badAdSets v1rows).map (fun g => (g.name, g.roas)) = [("A", 9/10)] ∧
    ¬ ((9:ℚ)/10 < avgRoas v1rows * (8/10)) := by
  norm_num [v1rows, v1.badAdSets, v1.adSets, v1.minSpendForDecision, v1.highCpaThreshold,
    v1.calculateMetrics, aggBuild, aggStep, addItem, initAgg, adSetKey, mkAd,
    isEcommerce, dominantResultType, jsKeys, countType, avgRoas, avgCpa,
    totalSpent, totalRevenue, totalResults, List.foldl, List.filter,
    show (("A":String) = "") = False by simp,
    show (("B":String) = "") = False by simp,
    show (("A":String) = "B") = False by simp,
    show (("B":String) = "A") = False by simp]

/-- C4, amended: an aggregated ad-set group is in `badAdSets` exactly when
its spend reaches the decision floor and, in e-commerce context, its roas is
below `1.0` **or** below `avgRoas × 0.8`, or, in non-e-commerce context, its
results are 0 or its cpa exceeds `cpaBad = avgCpa × 1.3`. -/
theorem badAdSets_characterization (data : List AdData) (g : AggregatedMetrics) :
    g ∈ v1.badAdSets data ↔
      g ∈ v1.adSets data ∧ ¬ g.spend < v1.minSpendForDecision data ∧
        (if isEcommerce data then g.roas < 1 ∨ g.roas < avgRoas data * (8/10)
         else g.results = 0 ∨ v1.highCpaThreshold data < g.cpa) := by
  simp only [v1.badAdSets, List.mem_filter]
  refine and_congr_right fun _ => ?_
  split_ifs <;> simp_all

section PickFold

variable {α : Type} (c : α → ℕ)

lemma foldl_pick_mem (l : List α) (a : α) :
    l.foldl (fun x y => if c y < c x then x else y) a ∈ a :: l := by
  induction l generalizing a with
  | nil => simp
  | cons b t ih =>
    simp only [List.foldl_cons]
    have h := ih (if c b < c a then a else b)
    rw [List.mem_cons] at h
    rcases h with h | h
    · rw [h]
      split_ifs <;> simp
    · exact List.mem_cons_of_mem _ (List.mem_cons_of_mem _ h)

lemma foldl_pick_le (l : List α) : ∀ (a x : α), x ∈ a :: l →
    c x ≤ c (l.foldl (fun x y => if c y < c x then x else y) a) := by
  induction l with
  | nil =>
    intro a x hx
    rw [List.mem_singleton] at hx
    subst hx
    exact le_refl _
  | cons b t ih =>
    intro a x hx
    simp only [List.foldl_cons]
    have hpick : c a ≤ c (if c b < c a then a else b) ∧
        c b ≤ c (if c b < c a then a else b) := by
      split_ifs with hc
      · exact ⟨le_refl _, hc.le⟩
      · exact ⟨le_of_not_lt hc, le_refl _⟩
    rcases List.mem_cons.mp hx with rfl | hx
    · exact le_trans hpick.1 (ih _ _ (List.mem_cons_self _ _))
    · rcases List.mem_cons.mp hx with rfl | hx
      · exact le_trans hpick.2 (ih _ _ (List.mem_cons_self _ _))
      · exact ih _ _ (List.mem_cons_of_mem _ hx)

lemma foldl_pick_last (l : List α) (a : α) :
    ((a :: l).filter
        (fun k => c k == c (l.foldl (fun x y => if c y < c x then x else y) a))).getLast?
      = some (l.foldl (fun x y => if c y < c x then x else y) a) := by
  induction l generalizing a with
  | nil =>
    simp [List.filter]
  | cons b t ih =>
    simp only [List.foldl_cons]
    by_cases hba : c b < c a
    · rw [if_pos hba]
      have har : c a ≤ c (t.foldl (fun x y => if c y < c x then x else y) a) :=
        foldl_pick_le c t a a (List.mem_cons_self _ _)
      have hb : (c b == c (t.foldl (fun x y => if c y < c x then x else y) a)) = false := by
        rw [beq_eq_false_iff_ne]
        intro h
        exact absurd (lt_of_lt_of_le hba har) (by rw [h]; exact lt_irrefl _)
      have h := ih a
      rw [List.filter_cons] at h ⊢
      rw [List.filter_cons, hb] at *
      simpa using h
    · rw [if_neg hba]
      have hab : c a ≤ c b := le_of_not_lt hba
      have hbr : c b ≤ c (t.foldl (fun x y => if c y < c x then x else y) b) :=
        foldl_pick_le c t b b (List.mem_cons_self _ _)
      have h := ih b
      by_cases ha : c a = c (t.foldl (fun x y => if c y < c x then x else y) b)
      · have hne : (b :: t).filter
            (fun k => c k == c (t.foldl (fun x y => if c y < c x then x else y) b)) ≠ [] := by
          intro hnil
          rw [hnil] at h
          simp at h
        obtain ⟨y, ys, hys⟩ := List.exists_cons_of_ne_nil hne
        rw [List.filter_cons, if_pos (by simpa using ha), hys, List.getLast?_cons_cons,
          ← hys, h]
      · rw [List.filter_cons, if_neg (by simpa using ha)]
        exact h

end PickFold

lemma mem_foldl_ins (l : List String) (acc : List String) (a : String) :
    a ∈ l.foldl (fun ks k => if k ∈ ks then ks else ks ++ [k]) acc ↔ a ∈ acc ∨ a ∈ l := by
  induction l generalizing acc with
  | nil => simp
  | cons b t ih =>
    simp only [List.foldl_cons]
    rw [ih]
    by_cases hb : b ∈ acc
    · rw [if_pos hb]
      constructor
      · rintro (h | h)
        · exact Or.inl h
        · exact Or.inr (List.mem_cons_of_mem _ h)
      · rintro (h | h)
        · exact Or.inl h
        · rcases List.mem_cons.mp h with rfl | h
          · exact Or.inl hb
          · exact Or.inr h
    · rw [if_neg hb]
      simp only [List.mem_append, List.mem_singleton, List.mem_cons]
      tauto

lemma mem_jsKeys {l : List String} {a : String} : a ∈ jsKeys l ↔ a ∈ l := by
  rw [jsKeys, mem_foldl_ins]
  simp

lemma dominant_mem_keys (data : List AdData) (h : data ≠ []) :
    dominantResultType data ∈ jsKeys (data.map (fun i => i.resultType)) := by
  have hmem : dominantResultType data ∈
      "generic" :: jsKeys (data.map (fun i => i.resultType)) :=
    foldl_pick_mem (countType data) _ "generic"
  rw [List.mem_cons] at hmem
  rcases hmem with hgen | hk
  · by_cases hgk : "generic" ∈ jsKeys (data.map (fun i => i.resultType))
    · rw [hgen]
      exact hgk
    · exfalso
      have hgz : countType data "generic" = 0 := by
        rw [countType, List.count_eq_zero]
        intro hmemg
        exact hgk (mem_jsKeys.mpr hmemg)
      obtain ⟨d, hd⟩ := List.exists_mem_of_ne_nil data h
      have hd' : d.resultType ∈ data.map (fun i => i.resultType) :=
        List.mem_map_of_mem _ hd
      have hle : countType data d.resultType ≤ countType data (dominantResultType data) :=
        foldl_pick_le (countType data) _ "generic" d.resultType
          (List.mem_cons_of_mem _ (mem_jsKeys.mpr hd'))
      have hpos : 0 < countType data d.resultType := by
        rw [countType, List.count_pos_iff]
        exact hd'
      rw [hgen, hgz] at hle
      omega
  · exact hk

lemma dominant_count_le (data : List AdData) (k : String)
    (hk : k ∈ jsKeys (data.map (fun i => i.resultType))) :
    countType data k ≤ countType data (dominantResultType data) :=
  foldl_pick_le (countType data) _ "generic" k (List.mem_cons_of_mem _ hk)

/-- Two rows with distinct result types, one occurrence each: a tie. -/
def tieRows : List AdData :=
  [mkAd "purchase" "S" "A1" 0 0 0, mkAd "lead" "S" "A2" 0 0 0]

/-- C2, counterexample: with one `purchase` row followed by one `lead` row the
two counts tie at 1; under first-encountered-wins the dominant type would be
`"purchase"` (the first key in stable iteration order), but the code returns
`"lead"` — the reduce `counts[a] > counts[b] ? a : b` hands ties to the
later key. -/
theorem dominant_tie_counterexample :
    tieRows.map (fun i => i.resultType) = ["purchase", "lead"] ∧
    countType tieRows "purchase" = 1 ∧
    countType tieRows "lead" = 1 ∧
    dominantResultType tieRows = "lead" := by
  decide

/-- C2, amended: `dominantResultType` is `"generic"` on the empty record set;
on a non-empty record set it is a result type with the maximal occurrence
count, and among the maximal-count types (in stable first-encountered key
order) it is the **last**-encountered one. -/
theorem dominant_amended (data : List AdData) (h : data ≠ []) :
    dominantResultType ([] : List AdData) = "generic" ∧
    dominantResultType data ∈ jsKeys (data.map (fun i => i.resultType)) ∧
    (∀ k ∈ jsKeys (data.map (fun i => i.resultType)),
      countType data k ≤ countType data (dominantResultType data)) ∧
    ((jsKeys (data.map (fun i => i.resultType))).filter
        (fun k => countType data k == countType data (dominantResultType data))).getLast?
      = some (dominantResultType data) := by
  refine ⟨rfl, dominant_mem_keys data h, fun k hk => dominant_count_le data k hk, ?_⟩
  have h3 : (("generic" :: jsKeys (data.map (fun i => i.resultType))).filter
      (fun k => countType data k == countType data (dominantResultType data))).getLast?
      = some (dominantResultType data) :=
    foldl_pick_last (countType data) _ "generic"
  have hdf : dominantResultType data ∈ (jsKeys (data.map (fun i => i.resultType))).filter
      (fun k => countType data k == countType data (dominantResultType data)) :=
    List.mem_filter.mpr ⟨dominant_mem_keys data h, by simp⟩
  have hne : (jsKeys (data.map (fun i => i.resultType))).filter
      (fun k => countType data k == countType data (dominantResultType data)) ≠ [] :=
    List.ne_nil_of_mem hdf
  rw [List.filter_cons] at h3
  by_cases hg : (countType data "generic" == countType data (dominantResultType data)) = true
  · rw [if_pos hg] at h3
    obtain ⟨y, ys, hys⟩ := List.exists_cons_of_ne_nil hne
    rw [hys] at h3 ⊢
    rw [List.getLast?_cons_cons] at h3
    exact h3
  · rw [if_neg hg] at h3
    exact h3

/-- Witness for C2 (amended) at the concrete tied data set. -/
theorem dominant_amended_witness :
    dominantResultType ([] : List AdData) = "generic" ∧
    dominantResultType tieRows ∈ jsKeys (tieRows.map (fun i => i.resultType)) ∧
    (∀ k ∈ jsKeys (tieRows.map (fun i => i.resultType)),
      countType tieRows k ≤ countType tieRows (dominantResultType tieRows)) ∧
    ((jsKeys (tieRows.map (fun i => i.resultType))).filter
        (fun k => countType tieRows k == countType tieRows (dominantResultType tieRows))).getLast?
      = some (dominantResultType tieRows) :=
  dominant_amended tieRows (by decide)

/-- C9: on a non-empty record set the dominant result type is the result type
of at least one input record; in particular it can only be `"generic"` when
some record actually carries result type `"generic"`. -/
theorem dominant_is_some_record_type (data : List AdData) (h : data ≠ []) :
    dominantResultType data ∈ data.map (fun i => i.resultType) ∧
    (dominantResultType data = "generic" →
      "generic" ∈ data.map (fun i => i.resultType)) := by
  have h1 := mem_jsKeys.mp (dominant_mem_keys data h)
  exact ⟨h1, fun hg => hg ▸ h1⟩

/-- Witness for C9 at the concrete two-row data set. -/
theorem dominant_is_some_record_type_witness :
    dominantResultType tieRows ∈ tieRows.map (fun i => i.resultType) ∧
    (dominantResultType tieRows = "generic" →
      "generic" ∈ tieRows.map (fun i => i.resultType)) :=
  dominant_is_some_record_type tieRows (by decide)

section StableSort

variable {α : Type}

lemma mem_insertS (le : α → α → Bool) (x : α) (l : List α) (y : α) :
    y ∈ insertS le x l ↔ y = x ∨ y ∈ l := by
  induction l with
  | nil => simp [insertS]
  | cons b t ih =>
    simp only [insertS]
    split_ifs
    · simp [List.mem_cons]
    · rw [List.mem_cons, ih, List.mem_cons]
      tauto

lemma insertS_perm (le : α → α → Bool) (x : α) (l : List α) :
    (insertS le x l).Perm (x :: l) := by
  induction l with
  | nil => exact List.Perm.refl _
  | cons b t ih =>
    simp only [insertS]
    split_ifs
    · exact List.Perm.refl _
    · exact (ih.cons b).trans (List.Perm.swap x b t)

lemma jsSort_perm (le : α → α → Bool) (l : List α) : (jsSort le l).Perm l := by
  induction l with
  | nil => exact List.Perm.refl _
  | cons b t ih => exact (insertS_perm le b (jsSort le t)).trans (ih.cons b)

lemma pairwise_insertS (le : α → α → Bool)
    (htot : ∀ a b, le a b = false → le b a = true)
    (htrans : ∀ a b c, le a b = true → le b c = true → le a c = true)
    (x : α) (l : List α) (h : l.Pairwise (fun a b => le a b = true)) :
    (insertS le x l).Pairwise (fun a b => le a b = true) := by
  induction l with
  | nil => simp [insertS]
  | cons b t ih =>
    rw [List.pairwise_cons] at h
    simp only [insertS]
    split_ifs with hxb
    · rw [List.pairwise_cons]
      refine ⟨?_, List.pairwise_cons.mpr h⟩
      intro y hy
      rcases List.mem_cons.mp hy with rfl | hy
      · exact hxb
      · exact htrans x b y hxb (h.1 y hy)
    · rw [List.pairwise_cons]
      refine ⟨?_, ih h.2⟩
      intro y hy
      rcases (mem_insertS le x t y).mp hy with rfl | hy
      · exact htot _ _ (by simpa using hxb)
      · exact h.1 y hy

lemma pairwise_jsSort (le : α → α → Bool)
    (htot : ∀ a b, le a b = false → le b a = true)
    (htrans : ∀ a b c, le a b = true → le b c = true → le a c = true)
    (l : List α) : (jsSort le l).Pairwise (fun a b => le a b = true) := by
  induction l with
  | nil => simp [jsSort]
  | cons b t ih => exact pairwise_insertS le htot htrans b _ ih

lemma pairwise_getLast_le (le : α → α → Bool) :
    ∀ l : List α, l.Pairwise (fun a b => le a b = true) →
      ∀ L, l.getLast? = some L → ∀ x ∈ l, x = L ∨ le x L = true := by
  intro l
  induction l with
  | nil =>
    intro _ L hL
    simp at hL
  | cons b t ih =>
    intro h L hL x hx
    rw [List.pairwise_cons] at h
    cases t with
    | nil =>
      rw [List.mem_singleton] at hx
      subst hx
      simp only [List.getLast?_singleton, Option.some.injEq] at hL
      exact Or.inl hL
    | cons y ys =>
      rw [List.getLast?_cons_cons] at hL
      rcases List.mem_cons.mp hx with rfl | hx
      · exact Or.inr (h.1 L (List.mem_of_mem_getLast? hL))
      · exact ih h.2 L hL x hx

end StableSort

lemma gemini_dominant_unique (data : List AdData) (m : String)
    (hm : m ∈ data.map (fun i => i.resultType)) (hm0 : m ≠ "")
    (huniq : ∀ t ∈ data.map (fun i => i.resultType), t ≠ m →
      (data.map (fun i => i.resultType)).count t <
        (data.map (fun i => i.resultType)).count m) :
    gemini.dominantResultType data = m := by
  simp only [gemini.dominantResultType]
  have htot : ∀ a b : String,
      decide ((data.map (fun i => i.resultType)).count a ≤
        (data.map (fun i => i.resultType)).count b) = false →
      decide ((data.map (fun i => i.resultType)).count b ≤
        (data.map (fun i => i.resultType)).count a) = true := by
    intro a b h
    simp only [decide_eq_false_iff_not, not_le] at h
    simp only [decide_eq_true_eq]
    exact h.le
  have htrans : ∀ a b c : String,
      decide ((data.map (fun i => i.resultType)).count a ≤
        (data.map (fun i => i.resultType)).count b) = true →
      decide ((data.map (fun i => i.resultType)).count b ≤
        (data.map (fun i => i.resultType)).count c) = true →
      decide ((data.map (fun i => i.resultType)).count a ≤
        (data.map (fun i => i.resultType)).count c) = true := by
    intro a b c h1 h2
    simp only [decide_eq_true_eq] at h1 h2 ⊢
    omega
  have hperm := jsSort_perm
    (fun a b => decide ((data.map (fun i => i.resultType)).count a ≤
      (data.map (fun i => i.resultType)).count b))
    (data.map (fun i => i.resultType))
  have hsorted := pairwise_jsSort
    (fun a b => decide ((data.map (fun i => i.resultType)).count a ≤
      (data.map (fun i => i.resultType)).count b))
    htot htrans (data.map (fun i => i.resultType))
  cases hL : (jsSort
      (fun a b => decide ((data.map (fun i => i.resultType)).count a ≤
        (data.map (fun i => i.resultType)).count b))
      (data.map (fun i => i.resultType))).getLast? with
  | none =>
    rw [List.getLast?_eq_none_iff] at hL
    rw [hL] at hperm
    exact absurd hm (by rw [← hperm.nil_eq]; simp)
  | some L =>
    have hLs : L ∈ jsSort
        (fun a b => decide ((data.map (fun i => i.resultType)).count a ≤
          (data.map (fun i => i.resultType)).count b))
        (data.map (fun i => i.resultType)) :=
      List.mem_of_mem_getLast? (by simp [hL, Option.mem_def])
    have hLmem : L ∈ data.map (fun i => i.resultType) := hperm.mem_iff.mp hLs
    have hLm : L = m := by
      by_contra hne
      have h1 := huniq L hLmem hne
      have h2 := pairwise_getLast_le _ _ hsorted L hL m (hperm.mem_iff.mpr hm)
      rcases h2 with rfl | h2
      · exact hne rfl
      · simp only [decide_eq_true_eq] at h2
        omega
    subst hLm
    show (if L = "" then "generic" else L) = L
    rw [if_neg hm0]

lemma dominant_unique (data : List AdData) (m : String)
    (hm : m ∈ data.map (fun i => i.resultType))
    (huniq : ∀ t ∈ data.map (fun i => i.resultType), t ≠ m →
      countType data t < countType data m) :
    dominantResultType data = m := by
  have hne : data ≠ [] := by
    intro h0
    rw [h0] at hm
    simp at hm
  have hdt : dominantResultType data ∈ data.map (fun i => i.resultType) :=
    mem_jsKeys.mp (dominant_mem_keys data hne)
  by_contra hnem
  have h1 := huniq _ hdt hnem
  have h2 := dominant_count_le data m (mem_jsKeys.mpr hm)
  omega

lemma avgRoas_eq_gemini (data : List AdData)
    (hspend : ∀ d ∈ data, 0 ≤ d.amountSpent) :
    avgRoas data = gemini.avgRoas data := by
  have hts : 0 ≤ totalSpent data := by
    simp only [totalSpent]
    refine List.sum_nonneg ?_
    intro x hx
    obtain ⟨d, hd, rfl⟩ := List.mem_map.mp hx
    exact hspend d hd
  simp only [avgRoas, gemini.avgRoas]
  rcases eq_or_lt_of_le hts with h | h
  · rw [if_neg (by rw [← h]; exact lt_irrefl 0), if_pos h.symm]
  · rw [if_pos h, if_neg h.ne']

/-- C8, amended: under the record-extractor contract (non-negative spend) the
narrative-generator path computes the same `avgRoas` as the core, and when
the record set has a unique maximal-count result type (non-empty, as all
enumerated result-type tags are) both paths agree on `dominantResultType`
and hence on `isEcommerce`; on tied maximal counts the two paths may
disagree. -/
theorem gemini_context_agreement (data : List AdData) (m : String)
    (hspend : ∀ d ∈ data, 0 ≤ d.amountSpent)
    (hm : m ∈ data.map (fun i => i.resultType)) (hm0 : m ≠ "")
    (huniq : ∀ t ∈ data.map (fun i => i.resultType), t ≠ m →
      countType data t < countType data m) :
    avgRoas data = gemini.avgRoas data ∧
    dominantResultType data = m ∧
    gemini.dominantResultType data = m ∧
    isEcommerce data = gemini.isEcommerce data := by
  have h1 := avgRoas_eq_gemini data hspend
  have h2 := dominant_unique data m hm huniq
  have h3 := gemini_dominant_unique data m hm hm0 huniq
  refine ⟨h1, h2, h3, ?_⟩
  simp only [isEcommerce, gemini.isEcommerce, h1, h2, h3]

/-- Four zero-spend rows whose result types tie 2–2 in the order
purchase, lead, lead, purchase. -/
def gemRows : List AdData :=
  [mkAd "purchase" "S" "A1" 0 0 0, mkAd "lead" "S" "A2" 0 0 0,
   mkAd "lead" "S" "A3" 0 0 0, mkAd "purchase" "S" "A4" 0 0 0]

/-- C8, counterexample: on the tied data set the core's reduce returns
`"lead"` while the narrative generator's sort-and-pop returns `"purchase"`,
so the two paths disagree on `dominantResultType` and even on `isEcommerce`
(the `avgRoas` values still agree). -/
theorem gemini_context_counterexample :
    dominantResultType gemRows = "lead" ∧
    gemini.dominantResultType gemRows = "purchase" ∧
    isEcommerce gemRows = false ∧
    gemini.isEcommerce gemRows = true ∧
    avgRoas gemRows = gemini.avgRoas gemRows := by
  have hd1 : dominantResultType gemRows = "lead" := by decide
  have hd2 : gemini.dominantResultType gemRows = "purchase" := by decide
  have h0 : totalSpent gemRows = 0 := by norm_num [totalSpent, gemRows, mkAd]
  have h1 : avgRoas gemRows = 0 := by
    simp only [avgRoas, h0]
    norm_num
  have h2 : gemini.avgRoas gemRows = 0 := by
    simp only [gemini.avgRoas, h0]
    norm_num
  refine ⟨hd1, hd2, ?_, ?_, by rw [h1, h2]⟩
  · simp only [isEcommerce, h1, hd1]
    rw [decide_eq_false (by norm_num : ¬ ((1:ℚ)/2 < (0:ℚ)))]
    rfl
  · simp only [gemini.isEcommerce, h2, hd2]
    rw [decide_eq_false (by norm_num : ¬ ((1:ℚ)/2 < (0:ℚ)))]
    rfl

/-- Three zero-spend rows with a unique maximal-count type (`purchase`, 2–1). -/
def gemAgreeRows : List AdData :=
  [mkAd "purchase" "S" "A1" 0 0 0, mkAd "purchase" "S" "A2" 0 0 0,
   mkAd "lead" "S" "A3" 0 0 0]

/-- Witness for C8 (amended) at a data set with a unique dominant type. -/
theorem gemini_context_agreement_witness :
    avgRoas gemAgreeRows = gemini.avgRoas gemAgreeRows ∧
    dominantResultType gemAgreeRows = "purchase" ∧
    gemini.dominantResultType gemAgreeRows = "purchase" ∧
    isEcommerce gemAgreeRows = gemini.isEcommerce gemAgreeRows :=
  gemini_context_agreement gemAgreeRows "purchase" (by decide) (by decide)
    (by decide) (by decide)

/-- Folding a batch of rows into one accumulator entry. -/
def addMany (g : AggregatedMetrics) (ms : List AdData) : AggregatedMetrics :=
  ms.foldl addItem g

lemma addItem_name (g : AggregatedMetrics) (item : AdData) :
    (addItem g item).name = g.name := rfl

lemma addMany_name (ms : List AdData) : ∀ g, (addMany g ms).name = g.name := by
  induction ms with
  | nil => intro g; rfl
  | cons x t ih => intro g; exact ih (addItem g x)

lemma addMany_spend (ms : List AdData) : ∀ g,
    (addMany g ms).spend = g.spend + (ms.map (fun i => i.amountSpent)).sum := by
  induction ms with
  | nil => intro g; simp [addMany]
  | cons x t ih =>
    intro g
    have := ih (addItem g x)
    simp only [addMany, List.foldl_cons] at this ⊢
    rw [this]
    simp [addItem]
    ring

lemma addMany_revenue (ms : List AdData) : ∀ g,
    (addMany g ms).revenue = g.revenue + (ms.map (fun i => i.amountSpent * i.roas)).sum := by
  induction ms with
  | nil => intro g; simp [addMany]
  | cons x t ih =>
    intro g
    have := ih (addItem g x)
    simp only [addMany, List.foldl_cons] at this ⊢
    rw [this]
    simp [addItem]
    ring

lemma addMany_results (ms : List AdData) : ∀ g,
    (addMany g ms).results = g.results + (ms.map (fun i => i.results)).sum := by
  induction ms with
  | nil => intro g; simp [addMany]
  | cons x t ih =>
    intro g
    have := ih (addItem g x)
    simp only [addMany, List.foldl_cons] at this ⊢
    rw [this]
    simp [addItem]
    ring

lemma addMany_impressions (ms : List AdData) : ∀ g,
    (addMany g ms).impressions = g.impressions + (ms.map (fun i => i.impressions)).sum := by
  induction ms with
  | nil => intro g; simp [addMany]
  | cons x t ih =>
    intro g
    have := ih (addItem g x)
    simp only [addMany, List.foldl_cons] at this ⊢
    rw [this]
    simp [addItem]
    ring

lemma addMany_clicks (ms : List AdData) : ∀ g,
    (addMany g ms).clicks = g.clicks + (ms.map (fun i => i.clicks)).sum := by
  induction ms with
  | nil => intro g; simp [addMany]
  | cons x t ih =>
    intro g
    have := ih (addItem g x)
    simp only [addMany, List.foldl_cons] at this ⊢
    rw [this]
    simp [addItem]
    ring

lemma addMany_roas (ms : List AdData) : ∀ g, (addMany g ms).roas = g.roas := by
  induction ms with
  | nil => intro g; rfl
  | cons x t ih => intro g; exact ih (addItem g x)

lemma addMany_cpa (ms : List AdData) : ∀ g, (addMany g ms).cpa = g.cpa := by
  induction ms with
  | nil => intro g; rfl
  | cons x t ih => intro g; exact ih (addItem g x)

lemma addMany_ctr (ms : List AdData) : ∀ g, (addMany g ms).ctr = g.ctr := by
  induction ms with
  | nil => intro g; rfl
  | cons x t ih => intro g; exact ih (addItem g x)

lemma addMany_cpc (ms : List AdData) : ∀ g, (addMany g ms).cpc = g.cpc := by
  induction ms with
  | nil => intro g; rfl
  | cons x t ih => intro g; exact ih (addItem g x)

lemma aggMetricsExt (a b : AggregatedMetrics)
    (h1 : a.name = b.name) (h2 : a.spend = b.spend) (h3 : a.revenue = b.revenue)
    (h4 : a.results = b.results) (h5 : a.impressions = b.impressions)
    (h6 : a.clicks = b.clicks) (h7 : a.roas = b.roas) (h8 : a.cpa = b.cpa)
    (h9 : a.ctr = b.ctr) (h10 : a.cpc = b.cpc) : a = b := by
  cases a
  cases b
  simp_all

lemma addMany_eq_of_perm (g : AggregatedMetrics) (f f' : List AdData)
    (hp : f.Perm f') : addMany g f = addMany g f' := by
  refine aggMetricsExt _ _ ?_ ?_ ?_ ?_ ?_ ?_ ?_ ?_ ?_ ?_
  · rw [addMany_name, addMany_name]
  · rw [addMany_spend, addMany_spend, (hp.map (fun i => i.amountSpent)).sum_eq]
  · rw [addMany_revenue, addMany_revenue,
      (hp.map (fun i => i.amountSpent * i.roas)).sum_eq]
  · rw [addMany_results, addMany_results, (hp.map (fun i => i.results)).sum_eq]
  · rw [addMany_impressions, addMany_impressions,
      (hp.map (fun i => i.impressions)).sum_eq]
  · rw [addMany_clicks, addMany_clicks, (hp.map (fun i => i.clicks)).sum_eq]
  · rw [addMany_roas, addMany_roas]
  · rw [addMany_cpa, addMany_cpa]
  · rw [addMany_ctr, addMany_ctr]
  · rw [addMany_cpc, addMany_cpc]

lemma find?_congr_pred {α : Type} (p q : α → Bool) (h : ∀ a, p a = q a) :
    ∀ l : List α, l.find? p = l.find? q := by
  intro l
  induction l with
  | nil => rfl
  | cons b t ih => rw [List.find?_cons, List.find?_cons, h b, ih]

lemma uKeep_name (key : String) (item : AdData) (g : AggregatedMetrics) :
    (if g.name == key then addItem g item else g).name = g.name := by
  split_ifs <;> rfl

lemma find?_map_u (m : List AggregatedMetrics) (key k : String) (item : AdData) :
    ((m.map (fun g => if g.name == key then addItem g item else g)).find?
        (fun g => g.name == k))
      = (m.find? (fun g => g.name == k)).map
          (fun g => if g.name == key then addItem g item else g) := by
  rw [List.find?_map]
  refine congrArg (Option.map _) ?_
  refine find?_congr_pred _ _ (fun g => ?_) m
  simp only [Function.comp_apply]
  rw [uKeep_name]

lemma any_name_iff (acc : List AggregatedMetrics) (s : String) :
    acc.any (fun g => g.name == s) = true ↔ s ∈ acc.map (fun g => g.name) := by
  rw [List.any_eq_true, List.mem_map]
  constructor
  · rintro ⟨g, hg, hb⟩
    exact ⟨g, hg, by simpa using hb⟩
  · rintro ⟨g, hg, he⟩
    exact ⟨g, hg, by simp [he]⟩

lemma find?_aggBuild_loop (keyFn : AdData → String) (k : String) :
    ∀ (l : List AdData) (acc : List AggregatedMetrics),
      (l.foldl (aggStep keyFn) acc).find? (fun g => g.name == k) =
        match acc.find? (fun g => g.name == k) with
        | some g => some (addMany g (l.filter (fun r => keyFn r == k)))
        | none =>
            if l.filter (fun r => keyFn r == k) = [] then none
            else some (addMany (initAgg k) (l.filter (fun r => keyFn r == k))) := by
  intro l
  induction l with
  | nil =>
    intro acc
    cases hf : acc.find? (fun g => g.name == k) <;> simp [addMany, hf]
  | cons x t ih =>
    intro acc
    rw [List.foldl_cons, List.filter_cons]
    by_cases hkx : (keyFn x == k) = true
    · have hk : keyFn x = k := by simpa using hkx
      subst hk
      rw [if_pos hkx]
      simp only [aggStep]
      cases hf : acc.find? (fun g => g.name == keyFn x) with
      | some g =>
        have hany : acc.any (fun g => g.name == keyFn x) = true := by
          rw [List.any_eq_true]
          exact ⟨g, List.mem_of_find?_eq_some hf, by simpa using List.find?_some hf⟩
        rw [if_pos hany]
        have hstep : ((acc.map
            (fun g' => if g'.name == keyFn x then addItem g' x else g')).find?
              (fun g' => g'.name == keyFn x)) = some (addItem g x) := by
          rw [find?_map_u, hf, Option.map_some']
          simp [List.find?_some hf]
        rw [ih, hstep]
        simp [addMany]
      | none =>
        have hany : acc.any (fun g => g.name == keyFn x) = false := by
          rw [List.any_eq_false]
          exact List.find?_eq_none.mp hf
        rw [if_neg (by simp [hany])]
        have hstep : (((acc ++ [initAgg (keyFn x)]).map
            (fun g' => if g'.name == keyFn x then addItem g' x else g')).find?
              (fun g' => g'.name == keyFn x))
            = some (addItem (initAgg (keyFn x)) x) := by
          rw [find?_map_u, List.find?_append, hf]
          simp [initAgg]
        rw [ih, hstep]
        simp [addMany]
    · rw [if_neg hkx]
      have hk : ¬ keyFn x = k := by simpa using hkx
      have hstep : (aggStep keyFn acc x).find? (fun g => g.name == k)
          = acc.find? (fun g => g.name == k) := by
        simp only [aggStep]
        by_cases hany : acc.any (fun g => g.name == keyFn x) = true
        · rw [if_pos hany, find?_map_u]
          cases hf : acc.find? (fun g => g.name == k) with
          | none => simp
          | some g =>
            have hgk : g.name = k := by simpa using List.find?_some hf
            rw [Option.map_some', if_neg (by simp [hgk]; exact fun h => hk h.symm)]
        · rw [if_neg hany, find?_map_u, List.find?_append]
          have hinit : ([initAgg (keyFn x)].find? (fun g => g.name == k)) = none := by
            simp [List.find?_cons, initAgg, hk]
          rw [hinit, Option.or_none]
          cases hf : acc.find? (fun g => g.name == k) with
          | none => simp
          | some g =>
            have hgk : g.name = k := by simpa using List.find?_some hf
            rw [Option.map_some', if_neg (by simp [hgk]; exact fun h => hk h.symm)]
      rw [ih, hstep]

lemma find?_aggBuild (keyFn : AdData → String) (l : List AdData) (k : String) :
    (aggBuild keyFn l).find? (fun g => g.name == k) =
      if l.filter (fun r => keyFn r == k) = [] then none
      else some (addMany (initAgg k) (l.filter (fun r => keyFn r == k))) := by
  have h := find?_aggBuild_loop keyFn k l []
  simpa [aggBuild] using h

lemma find?_aggregate (keyFn : AdData → String) (l : List AdData) (k : String) :
    (aggregate keyFn l).find? (fun g => g.name == k) =
      ((aggBuild keyFn l).find? (fun g => g.name == k)).map finalizeAgg := by
  simp only [aggregate]
  rw [List.find?_map]
  refine congrArg (Option.map _) ?_
  refine find?_congr_pred _ _ (fun g => ?_) _
  simp only [Function.comp_apply]
  rfl

lemma names_aggStep (keyFn : AdData → String) (acc : List AggregatedMetrics)
    (x : AdData) :
    (aggStep keyFn acc x).map (fun g => g.name) =
      if keyFn x ∈ acc.map (fun g => g.name) then acc.map (fun g => g.name)
      else acc.map (fun g => g.name) ++ [keyFn x] := by
  simp only [aggStep]
  have hmapu : ∀ m : List AggregatedMetrics,
      (m.map (fun g => if g.name == keyFn x then addItem g x else g)).map
          (fun g => g.name)
        = m.map (fun g => g.name) := by
    intro m
    rw [List.map_map]
    refine List.map_congr_left ?_
    intro g hg
    simp only [Function.comp_apply]
    exact uKeep_name _ _ _
  by_cases hany : acc.any (fun g => g.name == keyFn x) = true
  · rw [if_pos hany, hmapu, if_pos ((any_name_iff acc (keyFn x)).mp hany)]
  · rw [if_neg hany, hmapu, List.map_append,
      if_neg (fun hmem => hany ((any_name_iff acc (keyFn x)).mpr hmem))]
    simp [initAgg]

lemma names_foldl (keyFn : AdData → String) : ∀ (l : List AdData)
    (acc : List AggregatedMetrics),
    (l.foldl (aggStep keyFn) acc).map (fun g => g.name) =
      (l.map keyFn).foldl (fun ks s => if s ∈ ks then ks else ks ++ [s])
        (acc.map (fun g => g.name)) := by
  intro l
  induction l with
  | nil => intro acc; rfl
  | cons x t ih =>
    intro acc
    rw [List.foldl_cons, List.map_cons, List.foldl_cons, ih, names_aggStep]

lemma names_aggregate (keyFn : AdData → String) (l : List AdData) :
    (aggregate keyFn l).map (fun g => g.name) = jsKeys (l.map keyFn) := by
  simp only [aggregate]
  rw [List.map_map]
  have hcomp : ((fun g : AggregatedMetrics => g.name) ∘ finalizeAgg)
      = (fun g : AggregatedMetrics => g.name) := rfl
  rw [hcomp]
  have h := names_foldl keyFn l []
  simpa [aggBuild, jsKeys] using h

/-- C5: aggregation totals are independent of input order.  For any two
permutations of the same rows and any grouping key, the group emitted for
each key is identical (same name, same summed spend/revenue/results/
impressions/clicks, hence the same derived ratios); only emission order may
change, and for every input it is exactly the first-seen key order of that
input. -/
theorem aggregate_perm_invariant (keyFn : AdData → String) (l l' : List AdData)
    (h : l.Perm l') :
    (∀ k : String,
      (aggregate keyFn l).find? (fun g => g.name == k) =
        (aggregate keyFn l').find? (fun g => g.name == k)) ∧
    (aggregate keyFn l).map (fun g => g.name) = jsKeys (l.map keyFn) ∧
    (aggregate keyFn l').map (fun g => g.name) = jsKeys (l'.map keyFn) := by
  refine ⟨?_, names_aggregate keyFn l, names_aggregate keyFn l'⟩
  intro k
  rw [find?_aggregate, find?_aggregate, find?_aggBuild, find?_aggBuild]
  have hfp : (l.filter (fun r => keyFn r == k)).Perm
      (l'.filter (fun r => keyFn r == k)) := h.filter _
  by_cases hnil : l.filter (fun r => keyFn r == k) = []
  · have h2 : l'.filter (fun r => keyFn r == k) = [] :=
      ((hnil ▸ hfp : ([] : List AdData).Perm _).nil_eq).symm
    rw [if_pos hnil, if_pos h2]
  · have h2 : ¬ l'.filter (fun r => keyFn r == k) = [] := by
      intro h0
      exact hnil (List.Perm.eq_nil (h0 ▸ hfp))
    rw [if_neg hnil, if_neg h2, addMany_eq_of_perm _ _ _ hfp]

/-- Witness for C5: two rows in different ad-sets, swapped. -/
theorem aggregate_perm_invariant_witness :
    ((aggregate adSetKey
        [mkAd "purchase" "S1" "A1" 1 2 1, mkAd "purchase" "S2" "A2" 3 4 1]).find?
          (fun g => g.name == "S1") =
      (aggregate adSetKey
        [mkAd "purchase" "S2" "A2" 3 4 1, mkAd "purchase" "S1" "A1" 1 2 1]).find?
          (fun g => g.name == "S1")) ∧
    (aggregate adSetKey
        [mkAd "purchase" "S1" "A1" 1 2 1, mkAd "purchase" "S2" "A2" 3 4 1]).map
          (fun g => g.name) =
      jsKeys ([mkAd "purchase" "S1" "A1" 1 2 1,
        mkAd "purchase" "S2" "A2" 3 4 1].map adSetKey) ∧
    (aggregate adSetKey
        [mkAd "purchase" "S2" "A2" 3 4 1, mkAd "purchase" "S1" "A1" 1 2 1]).map
          (fun g => g.name) =
      jsKeys ([mkAd "purchase" "S2" "A2" 3 4 1,
        mkAd "purchase" "S1" "A1" 1 2 1].map adSetKey) := by
  have h := aggregate_perm_invariant adSetKey
    [mkAd "purchase" "S1" "A1" 1 2 1, mkAd "purchase" "S2" "A2" 3 4 1]
    [mkAd "purchase" "S2" "A2" 3 4 1, mkAd "purchase" "S1" "A1" 1 2 1]
    (List.Perm.swap (mkAd "purchase" "S2" "A2" 3 4 1)
      (mkAd "purchase" "S1" "A1" 1 2 1) [])
  exact ⟨h.1 "S1", h.2.1, h.2.2⟩
